import Mathlib

/-!
Shallow embedding of the zoned, self-learning thermostat control core
(`app.py`): the per-zone state machine `RoomController.step`, the
overshoot model and predictor, the overshoot-episode tracker, the mode
parsing `ThermostatApp._read_mode`, and the per-zone portion of the
orchestrator cycle (`ThermostatApp.run`, including the disabled-zone
override).

Modelling conventions: Python floats become rationals; a tick's
timestamps (`now_ts()` calls within one tick) are the single tick
timestamp `inp.ts`; the per-zone learning dict (`bins` with
`setdefault` to `{overshoot: 0.0, count: 0}`) becomes a total function
from bin keys to `BinData` whose default value is `⟨0, 0⟩`, which is
observationally equivalent to the dict for every read and write the
core performs.
-/

namespace Thermostat

/-- `DEFAULT_SETPOINT = 21.0` (app.py line 18). -/
def DEFAULT_SETPOINT : ℚ := 21

/-- `DEFAULT_HYSTERESIS = 0.3` (app.py line 19). -/
def DEFAULT_HYSTERESIS : ℚ := 3 / 10

/-- `DEFAULT_SLOPE_EMA_WINDOW_S = 300` (app.py line 23). -/
def DEFAULT_SLOPE_EMA_WINDOW_S : ℚ := 300

/-- `DEFAULT_OVERSHOOT_EMA_ALPHA = 0.2` (app.py line 24). -/
def DEFAULT_OVERSHOOT_EMA_ALPHA : ℚ := 1 / 5

/-- `DEFAULT_EPS_TEMP = 0.01` (app.py line 25). -/
def DEFAULT_EPS_TEMP : ℚ := 1 / 100

/-- `OUTDOOR_BINS` (app.py line 30). -/
def OUTDOOR_BINS : List (Int × Int) :=
  [(-30, -10), (-10, 0), (0, 10), (10, 20), (20, 35), (35, 60)]

/-- `temp_to_bin_key` (app.py lines 113-119): first half-open bin
containing the outdoor temperature, rendered `"lo..hi"`; `"unknown"`
when absent or outside all bins. -/
def temp_to_bin_key (outdoor_temp : Option ℚ) : String :=
  match outdoor_temp with
  | none => "unknown"
  | some t =>
    match OUTDOOR_BINS.find? (fun p => decide ((p.1 : ℚ) ≤ t) && decide (t < (p.2 : ℚ))) with
    | some p => toString p.1 ++ ".." ++ toString p.2
    | none => "unknown"

/-- One `(overshoot, count)` entry of the per-zone `bins` dict
(app.py lines 265-269). -/
structure BinData where
  overshoot : ℚ
  count : ℕ
  deriving DecidableEq

/-- The per-zone node of the learning store (`_learning_node`,
app.py lines 221-229). -/
structure LearningNode where
  bins : String → BinData
  ema_slope_on : Option ℚ
  ema_slope_off : Option ℚ

/-- The `pending_ov` dict opened on an ON→OFF switch
(app.py lines 355-360). -/
structure PendingOv where
  off_ts : ℚ
  temp_at_off : ℚ
  setpoint_at_off : ℚ
  peak_temp : ℚ
  deriving DecidableEq

/-- Runtime fields of a `RoomController` that the control step reads or
writes (app.py lines 190-199), plus its learning node. -/
structure RoomState where
  heating_cmd : ℕ
  last_cmd : ℕ
  last_switch_ts : ℚ
  last_temp : Option ℚ
  last_ts : Option ℚ
  ema_slope_on : Option ℚ
  ema_slope_off : Option ℚ
  pending_ov : Option PendingOv
  node : LearningNode

/-- The external per-tick inputs of one zone: tick timestamp and the
values read by `_read_inputs` / the setpoint read in `step`
(app.py lines 237-241, 310, 335) and the outdoor temperature. -/
structure TickInputs where
  ts : ℚ
  temp : ℚ
  hum : ℚ
  hyst_file : ℚ
  setpoint : ℚ
  outdoor : Option ℚ

/-- `safe_read_str` (app.py lines 82-86): default on missing or empty
content. -/
def safe_read_str (content : Option String) (default : String) : String :=
  match content with
  | none => default
  | some s => if s = "" then default else s

/-- Python's `str.lower()` (ASCII case folding), applied by
`_read_mode` and by `step` to the mode string. -/
def py_lower (s : String) : String := ⟨s.data.map Char.toLower⟩

/-- `ThermostatApp._read_mode` (app.py lines 494-496). -/
def read_mode (content : Option String) : String :=
  let mode := py_lower (safe_read_str content "auto")
  if mode = "auto" ∨ mode = "heat" ∨ mode = "on" then "auto" else "off"

/-- Room-side hysteresis clamp in `_read_inputs` (app.py line 241):
`max(0.0, hyst)` (the NaN check is vacuous over ℚ). -/
def room_hyst (hyst_file : ℚ) : ℚ := max 0 hyst_file

/-- Effective hysteresis `hyst = max(room_hyst, global_hyst)`
(app.py line 308). -/
def effective_hyst (hyst_file global_hyst : ℚ) : ℚ :=
  max (room_hyst hyst_file) global_hyst

/-- `dt_sec` computation (app.py lines 311-312). -/
def dt_of (st : RoomState) (ts loop_seconds : ℚ) : ℚ :=
  max (1 / 1000) (match st.last_ts with | some t => ts - t | none => loop_seconds)

/-- `RoomController._update_ema` (app.py lines 231-235). -/
def update_ema (current : Option ℚ) (new_val dt_sec window_s : ℚ) : ℚ :=
  let alpha := dt_sec / (window_s + dt_sec)
  match current with
  | none => new_val
  | some c => (1 - alpha) * c + alpha * new_val

/-- `RoomController._update_overshoot_model` (app.py lines 271-277):
first observation sets `max 0 observed`; later ones blend with the
fixed EMA factor; count increments. -/
def update_overshoot_model (b : BinData) (observed_overshoot : ℚ) : BinData :=
  if b.count = 0 then
    { overshoot := max 0 observed_overshoot, count := b.count + 1 }
  else
    { overshoot := (1 - DEFAULT_OVERSHOOT_EMA_ALPHA) * b.overshoot
        + DEFAULT_OVERSHOOT_EMA_ALPHA * max 0 observed_overshoot,
      count := b.count + 1 }

/-- Record an observation into one bin of a node (the mutation of
`node["bins"][bin_key]` performed by `_update_overshoot_model`). -/
def record_overshoot (node : LearningNode) (bin_key : String) (observed : ℚ) : LearningNode :=
  { node with
    bins := fun k =>
      if k = bin_key then update_overshoot_model (node.bins k) observed else node.bins k }

/-- `RoomController._predicted_overshoot` (app.py lines 279-287). -/
def predicted_overshoot (node : LearningNode) (bin_key : String) (tau_min : ℚ) : ℚ :=
  let learned := (node.bins bin_key).overshoot
  let fallback : ℚ :=
    match node.ema_slope_on with
    | some e => if e > 0 then e * tau_min else 0
    | none => 0
  max learned fallback

/-- The anticipatory shutoff trigger `off_trigger_temp`
(app.py line 343): `min(setpoint - pred_ov, setpoint)`. -/
def off_trigger_temp (node : LearningNode) (bin_key : String) (tau_min setpoint : ℚ) : ℚ :=
  min (setpoint - predicted_overshoot node bin_key tau_min) setpoint

/-- Slope-EMA learning of `step` (app.py lines 314-325): on every tick
with a previous temperature, update the EMA of the active phase and
mirror it into the learning node. -/
def slope_phase (st : RoomState) (inp : TickInputs) (loop_seconds : ℚ) : RoomState :=
  let dt_sec := dt_of st inp.ts loop_seconds
  match st.last_temp with
  | none => st
  | some lt =>
    let slope_per_min := (inp.temp - lt) / (dt_sec / 60)
    if st.heating_cmd = 1 then
      let e := update_ema st.ema_slope_on slope_per_min dt_sec DEFAULT_SLOPE_EMA_WINDOW_S
      { st with ema_slope_on := some e, node := { st.node with ema_slope_on := some e } }
    else
      let e := update_ema st.ema_slope_off slope_per_min dt_sec DEFAULT_SLOPE_EMA_WINDOW_S
      { st with ema_slope_off := some e, node := { st.node with ema_slope_off := some e } }

/-- Episode tracking of `step` (app.py lines 328-332) together with
`_finalize_pending_overshoot_if_ready` (app.py lines 289-303): while
OFF with an open episode, raise the peak, then close the episode when
the temperature dropped by at least `DEFAULT_EPS_TEMP` versus the
previous tick or 15 minutes elapsed since shutoff, recording
`max 0 (peak - setpoint_at_off)` into the current bin. -/
def tracker_phase (st : RoomState) (inp : TickInputs) (bin_key : String) : RoomState :=
  if st.heating_cmd = 0 then
    match st.pending_ov with
    | none => st
    | some p =>
      let p' := if inp.temp > p.peak_temp then { p with peak_temp := inp.temp } else p
      let elapsed := inp.ts - p'.off_ts
      let dropped : Bool :=
        match st.last_temp with
        | some lt => decide (inp.temp ≤ lt - DEFAULT_EPS_TEMP)
        | none => false
      let closing : Bool := dropped || decide (elapsed ≥ 15 * 60)
      if closing then
        let observed := max 0 (p'.peak_temp - p'.setpoint_at_off)
        { st with node := record_overshoot st.node bin_key observed, pending_ov := none }
      else
        { st with pending_ov := some p' }
  else st

/-- The learning and episode-tracking part of `step` that runs before
the transition logic (app.py lines 305-332). -/
def pre_transition (st : RoomState) (inp : TickInputs) (loop_seconds : ℚ) : RoomState :=
  tracker_phase (slope_phase st inp loop_seconds) inp (temp_to_bin_key inp.outdoor)

/-- The command transition logic of `step` (app.py lines 337-350),
computed on the post-tracking state: mode-off force, anticipatory
ON→OFF, hysteresis OFF→ON under the min-off lock, then the final
safety cutoff. -/
def next_cmd (st : RoomState) (inp : TickInputs) (mode : String)
    (tau_min min_on_s min_off_s global_hyst : ℚ) (bin_key : String) : ℕ :=
  let hyst := effective_hyst inp.hyst_file global_hyst
  let setpoint := inp.setpoint
  if py_lower mode = "off" then 0
  else
    let min_since_switch : ℚ :=
      if st.last_switch_ts > 0 then (inp.ts - st.last_switch_ts) / 60 else 10 ^ 9
    let cmd1 : ℕ :=
      if st.heating_cmd = 1 then
        if inp.temp ≥ off_trigger_temp st.node bin_key tau_min setpoint ∧
            min_since_switch * 60 ≥ min_on_s then 0
        else st.heating_cmd
      else
        if inp.temp ≤ setpoint - hyst ∧ min_since_switch * 60 ≥ min_off_s then 1
        else st.heating_cmd
    if inp.temp ≥ setpoint + hyst then 0 else cmd1

/-- `RoomController.step` (app.py lines 305-383): learning, episode
tracking, command transition, switch bookkeeping (episode open on
ON→OFF, discard on OFF→ON), then the last-observation update. -/
def step (st : RoomState) (inp : TickInputs) (mode : String)
    (tau_min min_on_s min_off_s loop_seconds global_hyst : ℚ) : RoomState :=
  let st2 := pre_transition st inp loop_seconds
  let prev_cmd := st2.heating_cmd
  let cmd := next_cmd st2 inp mode tau_min min_on_s min_off_s global_hyst
    (temp_to_bin_key inp.outdoor)
  let st3 :=
    if prev_cmd ≠ cmd then
      if prev_cmd = 1 ∧ cmd = 0 then
        { st2 with
            heating_cmd := cmd,
            last_switch_ts := inp.ts,
            pending_ov := some ⟨inp.ts, inp.temp, inp.setpoint, inp.temp⟩ }
      else if prev_cmd = 0 ∧ cmd = 1 then
        { st2 with heating_cmd := cmd, last_switch_ts := inp.ts, pending_ov := none }
      else
        { st2 with heating_cmd := cmd, last_switch_ts := inp.ts }
    else
      { st2 with heating_cmd := cmd }
  { st3 with last_temp := some inp.temp, last_ts := some inp.ts, last_cmd := prev_cmd }

/-- One zone's share of a cycle of `ThermostatApp.run`
(app.py lines 529-550): a disabled zone is forced OFF — the
last-switch timestamp and pending episode are touched only when the
command was previously nonzero — and an enabled zone runs `step`. -/
def tick_zone (enabled : Bool) (st : RoomState) (inp : TickInputs) (mode : String)
    (tau_min min_on_s min_off_s loop_seconds global_hyst : ℚ) : RoomState :=
  if enabled then
    step st inp mode tau_min min_on_s min_off_s loop_seconds global_hyst
  else if st.heating_cmd ≠ 0 then
    { st with heating_cmd := 0, last_switch_ts := inp.ts, pending_ov := none }
  else
    { st with heating_cmd := 0 }

/-! ### Concrete fixtures -/

/-- A learning node holding only dict defaults: every bin at
`{overshoot: 0.0, count: 0}`, no slope EMAs. -/
def node0 : LearningNode := ⟨fun _ => ⟨0, 0⟩, none, none⟩

/-- A freshly initialised zone state (app.py lines 190-199). -/
def st_init : RoomState := ⟨0, 0, 0, none, none, none, none, none, node0⟩

/-! ### Structural lemmas about the phases of `step` -/

lemma slope_phase_heating_cmd (st : RoomState) (inp : TickInputs) (loop_seconds : ℚ) :
    (slope_phase st inp loop_seconds).heating_cmd = st.heating_cmd := by
  simp only [slope_phase]
  split
  · rfl
  · split <;> rfl

lemma slope_phase_last_switch_ts (st : RoomState) (inp : TickInputs) (loop_seconds : ℚ) :
    (slope_phase st inp loop_seconds).last_switch_ts = st.last_switch_ts := by
  simp only [slope_phase]
  split
  · rfl
  · split <;> rfl

lemma slope_phase_last_temp (st : RoomState) (inp : TickInputs) (loop_seconds : ℚ) :
    (slope_phase st inp loop_seconds).last_temp = st.last_temp := by
  simp only [slope_phase]
  split
  · rfl
  · split <;> rfl

lemma slope_phase_pending_ov (st : RoomState) (inp : TickInputs) (loop_seconds : ℚ) :
    (slope_phase st inp loop_seconds).pending_ov = st.pending_ov := by
  simp only [slope_phase]
  split
  · rfl
  · split <;> rfl

lemma slope_phase_bins (st : RoomState) (inp : TickInputs) (loop_seconds : ℚ) :
    (slope_phase st inp loop_seconds).node.bins = st.node.bins := by
  simp only [slope_phase]
  split
  · rfl
  · split <;> rfl

lemma tracker_phase_heating_cmd (st : RoomState) (inp : TickInputs) (bin_key : String) :
    (tracker_phase st inp bin_key).heating_cmd = st.heating_cmd := by
  simp only [tracker_phase]
  repeat' split
  all_goals rfl

lemma tracker_phase_last_switch_ts (st : RoomState) (inp : TickInputs) (bin_key : String) :
    (tracker_phase st inp bin_key).last_switch_ts = st.last_switch_ts := by
  simp only [tracker_phase]
  repeat' split
  all_goals rfl

lemma tracker_phase_last_temp (st : RoomState) (inp : TickInputs) (bin_key : String) :
    (tracker_phase st inp bin_key).last_temp = st.last_temp := by
  simp only [tracker_phase]
  repeat' split
  all_goals rfl

lemma pre_transition_heating_cmd (st : RoomState) (inp : TickInputs) (loop_seconds : ℚ) :
    (pre_transition st inp loop_seconds).heating_cmd = st.heating_cmd := by
  unfold pre_transition
  rw [tracker_phase_heating_cmd, slope_phase_heating_cmd]

lemma pre_transition_last_switch_ts (st : RoomState) (inp : TickInputs) (loop_seconds : ℚ) :
    (pre_transition st inp loop_seconds).last_switch_ts = st.last_switch_ts := by
  unfold pre_transition
  rw [tracker_phase_last_switch_ts, slope_phase_last_switch_ts]

lemma step_heating_cmd (st : RoomState) (inp : TickInputs) (mode : String)
    (tau_min min_on_s min_off_s loop_seconds global_hyst : ℚ) :
    (step st inp mode tau_min min_on_s min_off_s loop_seconds global_hyst).heating_cmd =
      next_cmd (pre_transition st inp loop_seconds) inp mode tau_min min_on_s min_off_s
        global_hyst (temp_to_bin_key inp.outdoor) := by
  simp only [step]
  split_ifs <;> rfl

lemma step_node_eq (st : RoomState) (inp : TickInputs) (mode : String)
    (tau_min min_on_s min_off_s loop_seconds global_hyst : ℚ) :
    (step st inp mode tau_min min_on_s min_off_s loop_seconds global_hyst).node =
      (pre_transition st inp loop_seconds).node := by
  simp only [step]
  split_ifs <;> rfl

lemma step_pending_ov (st : RoomState) (inp : TickInputs) (mode : String)
    (tau_min min_on_s min_off_s loop_seconds global_hyst : ℚ) :
    (step st inp mode tau_min min_on_s min_off_s loop_seconds global_hyst).pending_ov =
      (if (pre_transition st inp loop_seconds).heating_cmd = 1 ∧
          next_cmd (pre_transition st inp loop_seconds) inp mode tau_min min_on_s min_off_s
            global_hyst (temp_to_bin_key inp.outdoor) = 0 then
        some ⟨inp.ts, inp.temp, inp.setpoint, inp.temp⟩
      else if (pre_transition st inp loop_seconds).heating_cmd = 0 ∧
          next_cmd (pre_transition st inp loop_seconds) inp mode tau_min min_on_s min_off_s
            global_hyst (temp_to_bin_key inp.outdoor) = 1 then
        none
      else (pre_transition st inp loop_seconds).pending_ov) := by
  simp only [step]
  split_ifs <;> first | rfl | omega

lemma step_last_switch_ts (st : RoomState) (inp : TickInputs) (mode : String)
    (tau_min min_on_s min_off_s loop_seconds global_hyst : ℚ) :
    (step st inp mode tau_min min_on_s min_off_s loop_seconds global_hyst).last_switch_ts =
      (if (pre_transition st inp loop_seconds).heating_cmd =
          next_cmd (pre_transition st inp loop_seconds) inp mode tau_min min_on_s min_off_s
            global_hyst (temp_to_bin_key inp.outdoor) then
        st.last_switch_ts
      else inp.ts) := by
  simp only [step]
  split_ifs <;>
    first
    | rfl
    | omega
    | exact pre_transition_last_switch_ts st inp loop_seconds

lemma next_cmd_zero_of_safety (st : RoomState) (inp : TickInputs) (mode : String)
    (tau_min min_on_s min_off_s global_hyst : ℚ) (bin_key : String)
    (h : inp.temp ≥ inp.setpoint + effective_hyst inp.hyst_file global_hyst) :
    next_cmd st inp mode tau_min min_on_s min_off_s global_hyst bin_key = 0 := by
  simp only [next_cmd]
  by_cases hm : py_lower mode = "off"
  · rw [if_pos hm]
  · rw [if_neg hm, if_pos h]

lemma next_cmd_one_iff (st : RoomState) (inp : TickInputs) (mode : String)
    (tau_min min_on_s min_off_s global_hyst : ℚ) (bin_key : String)
    (h0 : st.heating_cmd = 0) (hb : min_off_s ≤ 60 * 10 ^ 9) :
    (next_cmd st inp mode tau_min min_on_s min_off_s global_hyst bin_key = 1 ↔
      (py_lower mode ≠ "off" ∧
       inp.temp ≤ inp.setpoint - effective_hyst inp.hyst_file global_hyst ∧
       inp.temp < inp.setpoint + effective_hyst inp.hyst_file global_hyst ∧
       (st.last_switch_ts > 0 → inp.ts - st.last_switch_ts ≥ min_off_s))) := by
  simp only [next_cmd]
  rw [h0]
  by_cases hm : py_lower mode = "off"
  · rw [if_pos hm]
    refine iff_of_false (by omega) ?_
    rintro ⟨hmm, _⟩
    exact hmm hm
  · rw [if_neg hm]
    by_cases hs : inp.temp ≥ inp.setpoint + effective_hyst inp.hyst_file global_hyst
    · rw [if_pos hs]
      refine iff_of_false (by omega) ?_
      rintro ⟨_, _, hlt, _⟩
      exact absurd hs (not_le.mpr hlt)
    · rw [if_neg hs, if_neg (show ¬ ((0:ℕ) = 1) by decide)]
      by_cases hl : st.last_switch_ts > 0
      · rw [if_pos hl]
        by_cases hcond : inp.temp ≤ inp.setpoint - effective_hyst inp.hyst_file global_hyst ∧
            (inp.ts - st.last_switch_ts) / 60 * 60 ≥ min_off_s
        · rw [if_pos hcond]
          refine iff_of_true rfl ⟨hm, hcond.1, lt_of_not_ge hs, fun _ => ?_⟩
          have h2 := hcond.2
          rwa [div_mul_cancel₀ _ (show (60:ℚ) ≠ 0 by norm_num)] at h2
        · rw [if_neg hcond]
          refine iff_of_false (by omega) ?_
          rintro ⟨_, hle, _, helap⟩
          refine hcond ⟨hle, ?_⟩
          rw [div_mul_cancel₀ _ (show (60:ℚ) ≠ 0 by norm_num)]
          exact helap hl
      · rw [if_neg hl]
        by_cases hcond : inp.temp ≤ inp.setpoint - effective_hyst inp.hyst_file global_hyst ∧
            (10:ℚ) ^ 9 * 60 ≥ min_off_s
        · rw [if_pos hcond]
          exact iff_of_true rfl ⟨hm, hcond.1, lt_of_not_ge hs, fun hl' => absurd hl' hl⟩
        · rw [if_neg hcond]
          refine iff_of_false (by omega) ?_
          rintro ⟨_, hle, _, _⟩
          refine hcond ⟨hle, ?_⟩
          calc min_off_s ≤ 60 * 10 ^ 9 := hb
            _ = (10:ℚ) ^ 9 * 60 := by ring

/-! ### Claim C1 -/

/-- Claim C1: on any cycle tick processed with global operating mode
`"off"`, every zone's heating command is OFF after its step on that
tick, whether the zone is enabled (runs `step`, whose mode-off rule is
unconditional) or disabled (forced OFF by the orchestrator): a zone is
never ON while the global mode is off. -/
theorem mode_off_never_on (enabled : Bool) (st : RoomState) (inp : TickInputs)
    (tau_min min_on_s min_off_s loop_seconds global_hyst : ℚ) :
    (tick_zone enabled st inp "off" tau_min min_on_s min_off_s loop_seconds
        global_hyst).heating_cmd = 0 := by
  cases enabled
  · unfold tick_zone
    split
    · simp_all
    · split <;> rfl
  · unfold tick_zone
    split
    · rw [step_heating_cmd]
      simp only [next_cmd]
      rw [if_pos (show py_lower "off" = "off" from rfl)]
    · simp_all

/-! ### Claim C2 -/

/-- Claim C2: on any tick of an enabled zone where the measured
temperature is at least setpoint + effective hysteresis, the command
after `step` is OFF — regardless of the previous command, of the
min-on lock, of the predictor output, and even of the mode: the safety
check is evaluated after the other transition rules and always wins
when triggered. -/
theorem safety_cutoff_always_off (st : RoomState) (inp : TickInputs) (mode : String)
    (tau_min min_on_s min_off_s loop_seconds global_hyst : ℚ)
    (h : inp.temp ≥ inp.setpoint + effective_hyst inp.hyst_file global_hyst) :
    (step st inp mode tau_min min_on_s min_off_s loop_seconds global_hyst).heating_cmd
      = 0 := by
  rw [step_heating_cmd]
  exact next_cmd_zero_of_safety _ _ _ _ _ _ _ _ h

/-- A zone that switched ON at time 100 and is still inside the min-on
lock two seconds later. -/
def st_on_locked : RoomState := ⟨1, 0, 100, some (205/10), some 100, none, none, none, node0⟩

/-- Witness for C2: a hot reading (25 °C against setpoint 21,
hysteresis 0.3) forces OFF even though the zone switched ON 2 s ago
with a 120 s min-on lock. -/
theorem safety_cutoff_always_off_witness :
    (step st_on_locked ⟨102, 25, 50, 3/10, 21, none⟩ "auto" 5 120 120 2
        (3/10)).heating_cmd = 0 :=
  safety_cutoff_always_off st_on_locked ⟨102, 25, 50, 3/10, 21, none⟩ "auto" 5 120 120 2
    (3/10) (by norm_num [effective_hyst, room_hyst])

/-! ### Claim C4 -/

/-- Claim C4, counterexample: an unrecognized stored mode string is
consumed as `"off"`, not `"auto"` as the claim states
(`_read_mode` whitelists `"auto"`, `"heat"`, `"on"` and maps everything
else to `"off"`). -/
theorem read_mode_unrecognized_is_off :
    read_mode (some "banana") = "off" ∧ read_mode (some "banana") ≠ "auto" := by
  exact ⟨rfl, by decide⟩

/-- Claim C4 amended: the consumed mode takes only the values `"auto"`
and `"off"`; a stored `"off"` yields off and a missing value yields
auto; a stored value is consumed as `"auto"` exactly when it is empty
(default substituted) or lowercases to `"auto"`, `"heat"` or `"on"`;
every other stored value — including unrecognized strings — is
consumed as `"off"`. -/
theorem read_mode_characterization :
    (∀ c : Option String, read_mode c = "auto" ∨ read_mode c = "off") ∧
    read_mode (some "off") = "off" ∧ read_mode none = "auto" ∧
    (∀ s : String, read_mode (some s) = "auto" ↔
      (s = "" ∨ py_lower s = "auto" ∨ py_lower s = "heat" ∨ py_lower s = "on")) := by
  refine ⟨?_, rfl, rfl, ?_⟩
  · intro c
    simp only [read_mode]
    split
    · exact Or.inl rfl
    · exact Or.inr rfl
  · intro s
    simp only [read_mode, safe_read_str]
    by_cases h : s = ""
    · subst h
      decide
    · simp only [if_neg h]
      split_ifs with hc
      · exact iff_of_true rfl (Or.inr hc)
      · refine iff_of_false (by decide) ?_
        rintro (h1 | h1 | h1 | h1)
        · exact h h1
        · exact hc (Or.inl h1)
        · exact hc (Or.inr (Or.inl h1))
        · exact hc (Or.inr (Or.inr h1))

/-! ### Claim C6 -/

/-- Modelled from the spec (section 4.3), for comparison with
`predicted_overshoot`: `max(learned_estimate(zone,bin),
heating_slope_ema(zone)·tau_minutes if >0 else 0)`. -/
def predicted_overshoot_spec (learned_estimate : ℚ) (heating_slope_ema : Option ℚ)
    (tau_minutes : ℚ) : ℚ :=
  max learned_estimate
    (match heating_slope_ema with
     | some e => if e > 0 then e * tau_minutes else 0
     | none => 0)

/-- Claim C6: the predicted overshoot equals the spec's formula
max(learned estimate, heating-slope EMA · tau when the EMA is set and
positive, else 0); the anticipatory ON→OFF trigger temperature used by
`step` is min(setpoint − predicted overshoot, setpoint) and never
exceeds the setpoint; and with heating-slope EMA 0.5 °C/min, tau 5 min
and learned estimate 0 the prediction is 2.5 °C. -/
theorem predictor_formula (node : LearningNode) (bin_key : String) (tau_min setpoint : ℚ) :
    predicted_overshoot node bin_key tau_min =
      predicted_overshoot_spec ((node.bins bin_key).overshoot) node.ema_slope_on tau_min ∧
    off_trigger_temp node bin_key tau_min setpoint =
      min (setpoint - predicted_overshoot node bin_key tau_min) setpoint ∧
    off_trigger_temp node bin_key tau_min setpoint ≤ setpoint ∧
    (node.ema_slope_on = some (1/2) → (node.bins bin_key).overshoot = 0 →
      predicted_overshoot node bin_key 5 = 5/2) := by
  refine ⟨rfl, rfl, min_le_right _ _, ?_⟩
  intro he hl
  simp only [predicted_overshoot]
  rw [he, hl]
  norm_num

/-- A learning node with heating-slope EMA 0.5 °C/min and all learned
estimates 0. -/
def nodeB : LearningNode := ⟨fun _ => ⟨0, 0⟩, some (1/2), none⟩

/-- Witness for C6 (Scenario B): EMA 0.5, tau 5, learned 0 give a
predicted overshoot of 2.5 °C. -/
theorem predictor_formula_witness : predicted_overshoot nodeB "unknown" 5 = 5/2 :=
  (predictor_formula nodeB "unknown" 5 21).2.2.2 rfl rfl

/-! ### Claim C8 -/

lemma update_overshoot_model_nonneg (b : BinData) (o : ℚ) (h : 0 ≤ b.overshoot) :
    0 ≤ (update_overshoot_model b o).overshoot := by
  unfold update_overshoot_model
  split
  · exact le_max_left 0 _
  · dsimp only
    have h1 : (0:ℚ) ≤ (1 - DEFAULT_OVERSHOOT_EMA_ALPHA) * b.overshoot :=
      mul_nonneg (by norm_num [DEFAULT_OVERSHOOT_EMA_ALPHA]) h
    have h2 : (0:ℚ) ≤ DEFAULT_OVERSHOOT_EMA_ALPHA * max 0 o :=
      mul_nonneg (by norm_num [DEFAULT_OVERSHOOT_EMA_ALPHA]) (le_max_left 0 _)
    exact add_nonneg h1 h2

lemma update_overshoot_model_count (b : BinData) (o : ℚ) :
    (update_overshoot_model b o).count = b.count + 1 := by
  unfold update_overshoot_model
  split <;> rfl

lemma foldl_update_overshoot (l : List ℚ) (b : BinData) (h : 0 ≤ b.overshoot) :
    0 ≤ (l.foldl update_overshoot_model b).overshoot ∧
      (l.foldl update_overshoot_model b).count = b.count + l.length := by
  induction l generalizing b with
  | nil => exact ⟨h, rfl⟩
  | cons o t ih =>
    have hrec := ih (update_overshoot_model b o) (update_overshoot_model_nonneg b o h)
    simp only [List.foldl_cons, List.length_cons]
    refine ⟨hrec.1, ?_⟩
    rw [hrec.2, update_overshoot_model_count]
    omega

/-- Claim C8: starting from any bin state with nonnegative estimate,
after any sequence of recorded observations (of arbitrary sign) the
stored estimate remains ≥ 0, and the stored count grows by exactly the
number of observations — one per recorded observation, so it never
decreases. -/
theorem overshoot_estimate_nonneg (l : List ℚ) (b : BinData) (h : 0 ≤ b.overshoot) :
    0 ≤ (l.foldl update_overshoot_model b).overshoot ∧
    (l.foldl update_overshoot_model b).count = b.count + l.length ∧
    (∀ o : ℚ, (update_overshoot_model b o).count = b.count + 1) :=
  ⟨(foldl_update_overshoot l b h).1, (foldl_update_overshoot l b h).2,
    fun o => update_overshoot_model_count b o⟩

/-- Witness for C8: recording −1, 3, −2 into a fresh bin leaves a
nonnegative estimate and a count of 3. -/
theorem overshoot_estimate_nonneg_witness :
    0 ≤ (([-1, 3, -2] : List ℚ).foldl update_overshoot_model ⟨0, 0⟩).overshoot ∧
    (([-1, 3, -2] : List ℚ).foldl update_overshoot_model ⟨0, 0⟩).count = 0 + 3 :=
  ⟨(overshoot_estimate_nonneg [-1, 3, -2] ⟨0, 0⟩ (by norm_num)).1,
    (overshoot_estimate_nonneg [-1, 3, -2] ⟨0, 0⟩ (by norm_num)).2.1⟩

/-! ### Claim C3 -/

/-- A zone that is ON, ten seconds after its last switch (at time
100), reading 20 °C against setpoint 21. -/
def stC3 : RoomState := ⟨1, 0, 100, some 20, some 100, none, none, none, node0⟩

/-- Tick inputs ten seconds after the switch of `stC3`. -/
def inpC3 : TickInputs := ⟨110, 20, 50, 3/10, 21, none⟩

/-- Claim C3, counterexample: with global mode `"off"`, a zone that
switched ON only 10 s earlier (min-on 120 s) switches ON→OFF on this
tick; the switch is not a safety cutoff (20 °C < 21.3 °C), yet the
elapsed time between the two consecutive switches is 10 s < 120 s:
the mode-off force also bypasses the min-on lock, so the bound does
not hold for every non-safety switch. -/
theorem min_lock_counterexample :
    stC3.heating_cmd = 1 ∧
    (step stC3 inpC3 "off" 5 120 120 2 (3/10)).heating_cmd = 0 ∧
    inpC3.temp < inpC3.setpoint + effective_hyst inpC3.hyst_file (3/10) ∧
    inpC3.ts - stC3.last_switch_ts = 10 ∧ (10 : ℚ) < 120 ∧
    (step stC3 inpC3 "off" 5 120 120 2 (3/10)).last_switch_ts = inpC3.ts := by
  refine ⟨rfl, rfl, by norm_num [inpC3, effective_hyst, room_hyst],
    by norm_num [inpC3, stC3], by norm_num, rfl⟩

lemma next_cmd_off_to_on_elapsed (st : RoomState) (inp : TickInputs) (mode : String)
    (tau_min min_on_s min_off_s global_hyst : ℚ) (bin_key : String)
    (h0 : st.heating_cmd = 0) (hsw : st.last_switch_ts > 0)
    (h1 : next_cmd st inp mode tau_min min_on_s min_off_s global_hyst bin_key = 1) :
    inp.ts - st.last_switch_ts ≥ min_off_s := by
  simp only [next_cmd] at h1
  rw [if_pos hsw] at h1
  by_cases hm : py_lower mode = "off"
  · rw [if_pos hm] at h1
    omega
  · rw [if_neg hm] at h1
    by_cases hs : inp.temp ≥ inp.setpoint + effective_hyst inp.hyst_file global_hyst
    · rw [if_pos hs] at h1
      omega
    · rw [if_neg hs, if_neg (show ¬ st.heating_cmd = 1 by omega)] at h1
      by_cases hc : inp.temp ≤ inp.setpoint - effective_hyst inp.hyst_file global_hyst ∧
          (inp.ts - st.last_switch_ts) / 60 * 60 ≥ min_off_s
      · have h2 := hc.2
        rwa [div_mul_cancel₀ _ (show (60:ℚ) ≠ 0 by norm_num)] at h2
      · rw [if_neg hc] at h1
        omega

lemma next_cmd_on_to_off_elapsed (st : RoomState) (inp : TickInputs) (mode : String)
    (tau_min min_on_s min_off_s global_hyst : ℚ) (bin_key : String)
    (h0 : st.heating_cmd = 1) (hsw : st.last_switch_ts > 0)
    (hmode : ¬ py_lower mode = "off")
    (hsafe : ¬ inp.temp ≥ inp.setpoint + effective_hyst inp.hyst_file global_hyst)
    (h1 : next_cmd st inp mode tau_min min_on_s min_off_s global_hyst bin_key = 0) :
    inp.ts - st.last_switch_ts ≥ min_on_s := by
  simp only [next_cmd] at h1
  rw [if_pos hsw, if_neg hmode, if_neg hsafe, if_pos h0] at h1
  by_cases hc : inp.temp ≥ off_trigger_temp st.node bin_key tau_min inp.setpoint ∧
      (inp.ts - st.last_switch_ts) / 60 * 60 ≥ min_on_s
  · have h2 := hc.2
    rwa [div_mul_cancel₀ _ (show (60:ℚ) ≠ 0 by norm_num)] at h2
  · rw [if_neg hc] at h1
    omega

/-- Claim C3 amended: for switches produced by the state machine with
mode ≠ off (a switch forced by mode = off — or by disabling the zone —
bypasses the locks without being a safety cutoff), and a previous
switch on record, an OFF→ON switch happens only ≥ min_off seconds
after the previous switch, and an ON→OFF switch that is not a safety
cutoff (temperature < setpoint + effective hysteresis) happens only
≥ min_on seconds after the previous switch; each switch stamps the
tick time as the new last-switch time, so the bound applies between
consecutive switches. -/
theorem min_lock_nonforced (st : RoomState) (inp : TickInputs) (mode : String)
    (tau_min min_on_s min_off_s loop_seconds global_hyst : ℚ)
    (hmode : py_lower mode ≠ "off") (hprev : st.last_switch_ts > 0) :
    (st.heating_cmd = 0 →
      (step st inp mode tau_min min_on_s min_off_s loop_seconds global_hyst).heating_cmd = 1 →
      inp.ts - st.last_switch_ts ≥ min_off_s ∧
      (step st inp mode tau_min min_on_s min_off_s loop_seconds global_hyst).last_switch_ts =
        inp.ts) ∧
    (st.heating_cmd = 1 →
      inp.temp < inp.setpoint + effective_hyst inp.hyst_file global_hyst →
      (step st inp mode tau_min min_on_s min_off_s loop_seconds global_hyst).heating_cmd = 0 →
      inp.ts - st.last_switch_ts ≥ min_on_s ∧
      (step st inp mode tau_min min_on_s min_off_s loop_seconds global_hyst).last_switch_ts =
        inp.ts) := by
  have hc2 := pre_transition_heating_cmd st inp loop_seconds
  have hsw2 := pre_transition_last_switch_ts st inp loop_seconds
  constructor
  · intro h0 hstep
    rw [step_heating_cmd] at hstep
    have helap := next_cmd_off_to_on_elapsed (pre_transition st inp loop_seconds) inp mode
      tau_min min_on_s min_off_s global_hyst (temp_to_bin_key inp.outdoor)
      (by rw [hc2]; exact h0) (by rw [hsw2]; exact hprev) hstep
    rw [hsw2] at helap
    refine ⟨helap, ?_⟩
    rw [step_last_switch_ts, if_neg ?_]
    rw [hc2, h0, hstep]
    omega
  · intro h1 hlt hstep
    rw [step_heating_cmd] at hstep
    have helap := next_cmd_on_to_off_elapsed (pre_transition st inp loop_seconds) inp mode
      tau_min min_on_s min_off_s global_hyst (temp_to_bin_key inp.outdoor)
      (by rw [hc2]; exact h1) (by rw [hsw2]; exact hprev) hmode (not_le.mpr hlt) hstep
    rw [hsw2] at helap
    refine ⟨helap, ?_⟩
    rw [step_last_switch_ts, if_neg ?_]
    rw [hc2, h1, hstep]
    omega

/-- A zone that is OFF with a switch on record at time 1, far outside
the min-off lock at time 1000. -/
def stW3 : RoomState := ⟨0, 0, 1, some 20, some 998, none, none, none, node0⟩

/-- Tick inputs at time 1000, reading 20 °C against setpoint 21. -/
def inpW3 : TickInputs := ⟨1000, 20, 50, 3/10, 21, none⟩

/-- Witness for amended C3: an OFF→ON switch 999 s after the previous
switch satisfies the 120 s min-off bound and stamps the tick time. -/
theorem min_lock_nonforced_witness :
    inpW3.ts - stW3.last_switch_ts ≥ 120 ∧
    (step stW3 inpW3 "auto" 5 120 120 2 (3/10)).last_switch_ts = inpW3.ts := by
  have hstep : (step stW3 inpW3 "auto" 5 120 120 2 (3/10)).heating_cmd = 1 := by
    rw [step_heating_cmd]
    refine (next_cmd_one_iff (pre_transition stW3 inpW3 2) inpW3 "auto" 5 120 120 (3/10)
      (temp_to_bin_key inpW3.outdoor) ?_ ?_).mpr ?_
    · simp [pre_transition_heating_cmd, stW3]
    · norm_num
    · rw [pre_transition_last_switch_ts]
      refine ⟨by decide, ?_, ?_, ?_⟩
      · norm_num [inpW3, effective_hyst, room_hyst]
      · norm_num [inpW3, effective_hyst, room_hyst]
      · norm_num [stW3, inpW3]
  exact (min_lock_nonforced stW3 inpW3 "auto" 5 120 120 2 (3/10) (by decide)
    (by norm_num [stW3])).1 rfl hstep

/-! ### Claim C5 -/

/-- Tick inputs with temperature exactly at the setpoint and a zone
hysteresis file reading 0. -/
def inpC5 : TickInputs := ⟨100, 21, 50, 0, 21, none⟩

/-- Claim C5, counterexample: with effective hysteresis 0 (zone file
0, global 0), temperature exactly at the setpoint, mode auto and
min_off = 0 on a zone that never switched, the claimed OFF→ON
conditions (mode ≠ off, temperature ≤ setpoint − hysteresis, elapsed
satisfied) all hold, yet the command does not switch ON: the safety
check (temperature ≥ setpoint + hysteresis, also satisfied at
hysteresis 0) resets it to OFF within the same tick, so the claimed
"if and only if" fails. -/
theorem off_to_on_counterexample :
    st_init.heating_cmd = 0 ∧
    py_lower "auto" ≠ "off" ∧
    inpC5.temp ≤ inpC5.setpoint - effective_hyst inpC5.hyst_file 0 ∧
    st_init.last_switch_ts = 0 ∧
    (step st_init inpC5 "auto" 5 120 0 2 0).heating_cmd ≠ 1 := by
  refine ⟨rfl, by decide, by norm_num [inpC5, effective_hyst, room_hyst], rfl, ?_⟩
  rw [step_heating_cmd, next_cmd_zero_of_safety]
  · decide
  · norm_num [inpC5, effective_hyst, room_hyst]


/-- Claim C5 amended: given a zone that is OFF, `step` switches it ON
iff mode ≠ off AND temperature ≤ setpoint − effective hysteresis AND
temperature < setpoint + effective hysteresis (the safety check must
not fire on the same tick — it can overlap only when the effective
hysteresis is 0) AND, when a previous switch is on record, at least
min_off seconds have elapsed since it (a zone that never switched
satisfies the elapsed condition for any physically sensible min-off,
here bounded by 6·10^10 s); Scenario A (setpoint 21.0, hysteresis
0.3, mode auto, min_off 0, switch ON once temperature ≤ 20.7)
instantiates the right-to-left direction. -/
theorem off_to_on_characterization (st : RoomState) (inp : TickInputs) (mode : String)
    (tau_min min_on_s min_off_s loop_seconds global_hyst : ℚ)
    (h0 : st.heating_cmd = 0) (hb : min_off_s ≤ 60 * 10 ^ 9) :
    ((step st inp mode tau_min min_on_s min_off_s loop_seconds global_hyst).heating_cmd = 1 ↔
      (py_lower mode ≠ "off" ∧
       inp.temp ≤ inp.setpoint - effective_hyst inp.hyst_file global_hyst ∧
       inp.temp < inp.setpoint + effective_hyst inp.hyst_file global_hyst ∧
       (st.last_switch_ts > 0 → inp.ts - st.last_switch_ts ≥ min_off_s))) := by
  rw [step_heating_cmd]
  have hiff := next_cmd_one_iff (pre_transition st inp loop_seconds) inp mode tau_min
    min_on_s min_off_s global_hyst (temp_to_bin_key inp.outdoor)
    (by rw [pre_transition_heating_cmd]; exact h0) hb
  rwa [pre_transition_last_switch_ts] at hiff

/-- Scenario A inputs: 20.5 °C against setpoint 21, hysteresis file
0.3. -/
def inpA : TickInputs := ⟨100, 41/2, 50, 3/10, 21, none⟩

/-- Witness for amended C5 (Scenario A): with setpoint 21.0,
hysteresis 0.3, mode auto, min_off 0 and temperature 20.5 ≤ 20.7 the
command switches OFF→ON on this tick. -/
theorem off_to_on_characterization_witness :
    (step st_init inpA "auto" 5 120 0 2 (3/10)).heating_cmd = 1 :=
  (off_to_on_characterization st_init inpA "auto" 5 120 0 2 (3/10) rfl
    (by norm_num)).mpr (by
      refine ⟨by decide, ?_, ?_, ?_⟩
      · norm_num [inpA, effective_hyst, room_hyst]
      · norm_num [inpA, effective_hyst, room_hyst]
      · norm_num [st_init])

/-! ### Claim C7 -/

lemma peak_update_eq (p : PendingOv) (t : ℚ) :
    (if t > p.peak_temp then { p with peak_temp := t } else p) =
      { p with peak_temp := max p.peak_temp t } := by
  split_ifs with hpk
  · rw [max_eq_right (le_of_lt hpk)]
  · rw [max_eq_left (le_of_not_lt hpk)]

lemma tracker_phase_closes (st : RoomState) (inp : TickInputs) (bin_key : String)
    (p : PendingOv) (lt : ℚ) (h0 : st.heating_cmd = 0) (hp : st.pending_ov = some p)
    (hl : st.last_temp = some lt)
    (hcl : inp.temp ≤ lt - DEFAULT_EPS_TEMP ∨ inp.ts - p.off_ts ≥ 15 * 60) :
    tracker_phase st inp bin_key =
      { st with
          node := record_overshoot st.node bin_key
            (max 0 (max p.peak_temp inp.temp - p.setpoint_at_off)),
          pending_ov := none } := by
  unfold tracker_phase
  rw [if_pos h0, hp]
  dsimp only
  rw [peak_update_eq, hl]
  dsimp only
  have hc : (decide (inp.temp ≤ lt - DEFAULT_EPS_TEMP) ||
      decide (inp.ts - p.off_ts ≥ 15 * 60)) = true := by
    rcases hcl with h | h <;> simp [h]
  rw [if_pos hc]

lemma tracker_phase_keeps (st : RoomState) (inp : TickInputs) (bin_key : String)
    (p : PendingOv) (lt : ℚ) (h0 : st.heating_cmd = 0) (hp : st.pending_ov = some p)
    (hl : st.last_temp = some lt)
    (hcl : ¬(inp.temp ≤ lt - DEFAULT_EPS_TEMP ∨ inp.ts - p.off_ts ≥ 15 * 60)) :
    tracker_phase st inp bin_key =
      { st with pending_ov := some { p with peak_temp := max p.peak_temp inp.temp } } := by
  push_neg at hcl
  unfold tracker_phase
  rw [if_pos h0, hp]
  dsimp only
  rw [peak_update_eq, hl]
  dsimp only
  have hc : (decide (inp.temp ≤ lt - DEFAULT_EPS_TEMP) ||
      decide (inp.ts - p.off_ts ≥ 15 * 60)) ≠ true := by
    simp only [ne_eq, Bool.or_eq_true, decide_eq_true_eq, not_or, not_le]
    exact ⟨hcl.1, hcl.2⟩
  rw [if_neg hc]

/-- Claim C7: for a zone that is OFF with an open episode and a
previous-tick temperature on record, the tick first raises the running
peak to max(peak, current temperature), and the episode closes exactly
when the temperature has dropped by ≥ 0.01 °C versus the previous tick
or ≥ 15 minutes have elapsed since the episode opened: on close,
max(0, peak − setpoint-at-off) is recorded into the overshoot model
for the current outdoor bin and the episode is discarded; otherwise no
bin of the model changes and the episode — with the updated peak —
stays open whenever the command stays OFF. -/
theorem episode_close_iff (st : RoomState) (inp : TickInputs) (mode : String)
    (tau_min min_on_s min_off_s loop_seconds global_hyst : ℚ) (p : PendingOv) (lt : ℚ)
    (h0 : st.heating_cmd = 0) (hp : st.pending_ov = some p) (hl : st.last_temp = some lt) :
    ((inp.temp ≤ lt - DEFAULT_EPS_TEMP ∨ inp.ts - p.off_ts ≥ 15 * 60) →
      (step st inp mode tau_min min_on_s min_off_s loop_seconds global_hyst).pending_ov
        = none ∧
      (step st inp mode tau_min min_on_s min_off_s loop_seconds global_hyst).node.bins =
        fun k =>
          if k = temp_to_bin_key inp.outdoor then
            update_overshoot_model (st.node.bins k)
              (max 0 (max p.peak_temp inp.temp - p.setpoint_at_off))
          else st.node.bins k) ∧
    (¬(inp.temp ≤ lt - DEFAULT_EPS_TEMP ∨ inp.ts - p.off_ts ≥ 15 * 60) →
      (step st inp mode tau_min min_on_s min_off_s loop_seconds global_hyst).node.bins =
        st.node.bins ∧
      ((step st inp mode tau_min min_on_s min_off_s loop_seconds global_hyst).heating_cmd
          = 0 →
        (step st inp mode tau_min min_on_s min_off_s loop_seconds global_hyst).pending_ov =
          some { p with peak_temp := max p.peak_temp inp.temp })) := by
  have hcmd : (pre_transition st inp loop_seconds).heating_cmd = 0 := by
    rw [pre_transition_heating_cmd]
    exact h0
  constructor
  · intro hcl
    have htr := tracker_phase_closes (slope_phase st inp loop_seconds) inp
      (temp_to_bin_key inp.outdoor) p lt
      (by rw [slope_phase_heating_cmd]; exact h0)
      (by rw [slope_phase_pending_ov]; exact hp)
      (by rw [slope_phase_last_temp]; exact hl) hcl
    have hpre : (pre_transition st inp loop_seconds).pending_ov = none := by
      unfold pre_transition
      rw [htr]
    constructor
    · rw [step_pending_ov]
      split_ifs with h1 h2
      · omega
      · rfl
      · exact hpre
    · rw [step_node_eq]
      unfold pre_transition
      rw [htr]
      dsimp only
      unfold record_overshoot
      dsimp only
      rw [slope_phase_bins]
  · intro hcl
    have htr := tracker_phase_keeps (slope_phase st inp loop_seconds) inp
      (temp_to_bin_key inp.outdoor) p lt
      (by rw [slope_phase_heating_cmd]; exact h0)
      (by rw [slope_phase_pending_ov]; exact hp)
      (by rw [slope_phase_last_temp]; exact hl) hcl
    constructor
    · rw [step_node_eq]
      unfold pre_transition
      rw [htr]
      dsimp only
      rw [slope_phase_bins]
    · intro hcmd2
      rw [step_heating_cmd] at hcmd2
      rw [step_pending_ov]
      split_ifs with h1 h2
      · omega
      · omega
      · unfold pre_transition
        rw [htr]

/-- The episode of Scenario C: opened at time 0 when switching OFF at
21.3 °C with setpoint 21, peak so far 21.6 °C. -/
def pC : PendingOv := ⟨0, 213/10, 21, 216/10⟩

/-- A zone OFF with the Scenario C episode open, previous temperature
21.6 °C. -/
def stC : RoomState := ⟨0, 0, 1, some (216/10), some 58, none, none, some pC, node0⟩

/-- Scenario C tick inputs: temperature fell to 21.5 °C, outdoor
5 °C. -/
def inpC : TickInputs := ⟨60, 215/10, 50, 3/10, 21, some 5⟩

/-- Witness for C7 (Scenario C): the 0.1 °C drop closes the episode
and records max(0, 21.6 − 21.0) = 0.6 °C in bin `"0..10"`. -/
theorem episode_close_iff_witness :
    (step stC inpC "auto" 5 0 0 2 (3/10)).pending_ov = none ∧
    ((step stC inpC "auto" 5 0 0 2 (3/10)).node.bins "0..10").overshoot = 3/5 := by
  have h := (episode_close_iff stC inpC "auto" 5 0 0 2 (3/10) pC (216/10) rfl rfl rfl).1
    (Or.inl (by norm_num [inpC, pC, DEFAULT_EPS_TEMP]))
  refine ⟨h.1, ?_⟩
  rw [congrFun h.2 "0..10"]
  rw [if_pos (show "0..10" = temp_to_bin_key inpC.outdoor from rfl)]
  simp only [stC, inpC, pC, node0, update_overshoot_model]
  norm_num

/-! ### Claim C9 -/

lemma tracker_phase_skip (st : RoomState) (inp : TickInputs) (bin_key : String)
    (h : ¬ st.heating_cmd = 0) : tracker_phase st inp bin_key = st := by
  unfold tracker_phase
  rw [if_neg h]

/-- Claim C9: (i) on any tick whose step switches a zone OFF→ON, the
pending episode after the step is `none`, and the overshoot model
(every bin of every zone's node) is exactly what the learning and
episode-tracking phase left — the discard performed by the transition
bookkeeping never records an observation; (ii) starting from a
well-formed command, if ON implies no open episode before the tick,
the same holds after any tick that ends ON, so an opened episode is
closed or discarded exactly once before a new one can be opened. -/
theorem off_to_on_discards_episode (st : RoomState) (inp : TickInputs) (mode : String)
    (tau_min min_on_s min_off_s loop_seconds global_hyst : ℚ)
    (hwf : st.heating_cmd = 0 ∨ st.heating_cmd = 1) :
    (st.heating_cmd = 0 →
      (step st inp mode tau_min min_on_s min_off_s loop_seconds global_hyst).heating_cmd
        = 1 →
      (step st inp mode tau_min min_on_s min_off_s loop_seconds global_hyst).pending_ov
        = none ∧
      (step st inp mode tau_min min_on_s min_off_s loop_seconds global_hyst).node.bins =
        (pre_transition st inp loop_seconds).node.bins) ∧
    ((st.heating_cmd = 1 → st.pending_ov = none) →
      (step st inp mode tau_min min_on_s min_off_s loop_seconds global_hyst).heating_cmd
        = 1 →
      (step st inp mode tau_min min_on_s min_off_s loop_seconds global_hyst).pending_ov
        = none) := by
  have hcmd := pre_transition_heating_cmd st inp loop_seconds
  constructor
  · intro h0 hon
    rw [step_heating_cmd] at hon
    refine ⟨?_, ?_⟩
    · rw [step_pending_ov]
      split_ifs with h1 h2
      · omega
      · rfl
      · exact absurd ⟨by omega, hon⟩ h2
    · rw [step_node_eq]
  · intro hinv hon
    rw [step_heating_cmd] at hon
    rw [step_pending_ov]
    split_ifs with h1 h2
    · omega
    · rfl
    · rcases hwf with h0 | h1c
      · exact absurd ⟨by omega, hon⟩ h2
      · unfold pre_transition
        rw [tracker_phase_skip _ _ _ (by rw [slope_phase_heating_cmd]; omega),
          slope_phase_pending_ov]
        exact hinv h1c

/-- An episode opened at time 200 for the C9 witness. -/
def pW9 : PendingOv := ⟨200, 213/10, 21, 215/10⟩

/-- A zone OFF with an open episode, 800 s after its last switch, whose
temperature has plateaued (no 0.01 °C drop, under 15 minutes). -/
def stW9 : RoomState := ⟨0, 0, 200, some 20, some 998, none, none, some pW9, node0⟩

/-- Tick inputs that trigger OFF→ON for `stW9`. -/
def inpW9 : TickInputs := ⟨1000, 20, 50, 3/10, 21, none⟩

/-- Witness for C9: an OFF→ON switch with a still-open episode discards
it and leaves the model exactly as the pre-transition phase left it. -/
theorem off_to_on_discards_episode_witness :
    (step stW9 inpW9 "auto" 5 120 120 2 (3/10)).pending_ov = none ∧
    (step stW9 inpW9 "auto" 5 120 120 2 (3/10)).node.bins =
      (pre_transition stW9 inpW9 2).node.bins := by
  have hstep : (step stW9 inpW9 "auto" 5 120 120 2 (3/10)).heating_cmd = 1 := by
    rw [step_heating_cmd]
    refine (next_cmd_one_iff (pre_transition stW9 inpW9 2) inpW9 "auto" 5 120 120 (3/10)
      (temp_to_bin_key inpW9.outdoor) ?_ ?_).mpr ?_
    · simp [pre_transition_heating_cmd, stW9]
    · norm_num
    · rw [pre_transition_last_switch_ts]
      refine ⟨by decide, ?_, ?_, ?_⟩
      · norm_num [inpW9, effective_hyst, room_hyst]
      · norm_num [inpW9, effective_hyst, room_hyst]
      · norm_num [stW9, inpW9]
  exact (off_to_on_discards_episode stW9 inpW9 "auto" 5 120 120 2 (3/10) (Or.inl rfl)).1
    rfl hstep

/-! ### Claim C10 -/

/-- A pending episode opened at time 40. -/
def pD : PendingOv := ⟨40, 213/10, 21, 214/10⟩

/-- A disabled-candidate zone that is already OFF but still has an open
episode. -/
def stD : RoomState := ⟨0, 0, 50, some 21, some 58, none, none, some pD, node0⟩

/-- The same zone but currently ON. -/
def stD2 : RoomState := ⟨1, 0, 50, some 21, some 58, none, none, some pD, node0⟩

/-- Tick inputs for the disabled-zone scenarios. -/
def inpD : TickInputs := ⟨60, 22, 50, 3/10, 21, none⟩

/-- Claim C10, counterexample: a disabled zone whose command was
already OFF keeps its pending episode on the tick — the orchestrator
clears `pending_ov` only inside the `prev_cmd != 0` branch, so "any
pending episode of that zone is cleared" fails. -/
theorem disabled_keeps_pending_counterexample :
    stD.pending_ov = some pD ∧
    (tick_zone false stD inpD "auto" 5 120 120 2 (3/10)).pending_ov = some pD ∧
    (tick_zone false stD inpD "auto" 5 120 120 2 (3/10)).heating_cmd = 0 :=
  ⟨rfl, rfl, rfl⟩

/-- Claim C10 amended: on every cycle tick a zone whose enabled flag is
false has its command forced OFF immediately, bypassing the hysteresis
conditions and the min-on/min-off locks, and no learning update is
performed for it (its node, last temperature and last timestamp are
untouched); its pending episode is cleared — and its last-switch
timestamp stamped — only when the command was previously ON; a
disabled zone that was already OFF keeps its pending episode and
last-switch timestamp unchanged. -/
theorem disabled_zone_forced_off (st : RoomState) (inp : TickInputs) (mode : String)
    (tau_min min_on_s min_off_s loop_seconds global_hyst : ℚ) :
    (tick_zone false st inp mode tau_min min_on_s min_off_s loop_seconds
        global_hyst).heating_cmd = 0 ∧
    (tick_zone false st inp mode tau_min min_on_s min_off_s loop_seconds
        global_hyst).node = st.node ∧
    (tick_zone false st inp mode tau_min min_on_s min_off_s loop_seconds
        global_hyst).last_temp = st.last_temp ∧
    (tick_zone false st inp mode tau_min min_on_s min_off_s loop_seconds
        global_hyst).last_ts = st.last_ts ∧
    (st.heating_cmd ≠ 0 →
      (tick_zone false st inp mode tau_min min_on_s min_off_s loop_seconds
          global_hyst).pending_ov = none ∧
      (tick_zone false st inp mode tau_min min_on_s min_off_s loop_seconds
          global_hyst).last_switch_ts = inp.ts) ∧
    (st.heating_cmd = 0 →
      (tick_zone false st inp mode tau_min min_on_s min_off_s loop_seconds
          global_hyst).pending_ov = st.pending_ov ∧
      (tick_zone false st inp mode tau_min min_on_s min_off_s loop_seconds
          global_hyst).last_switch_ts = st.last_switch_ts) := by
  unfold tick_zone
  split
  · simp_all
  · split_ifs with h
    · exact ⟨rfl, rfl, rfl, rfl, fun _ => ⟨rfl, rfl⟩, fun h0 => absurd h0 h⟩
    · exact ⟨rfl, rfl, rfl, rfl, fun hne => absurd hne h, fun _ => ⟨rfl, rfl⟩⟩

/-- Witness for amended C10: a disabled zone that was ON is forced OFF,
its episode cleared and its last-switch time stamped. -/
theorem disabled_zone_forced_off_witness :
    (tick_zone false stD2 inpD "auto" 5 120 120 2 (3/10)).heating_cmd = 0 ∧
    (tick_zone false stD2 inpD "auto" 5 120 120 2 (3/10)).pending_ov = none ∧
    (tick_zone false stD2 inpD "auto" 5 120 120 2 (3/10)).last_switch_ts = inpD.ts := by
  have h := disabled_zone_forced_off stD2 inpD "auto" 5 120 120 2 (3/10)
  exact ⟨h.1, (h.2.2.2.2.1 (by decide)).1, (h.2.2.2.2.1 (by decide)).2⟩

end Thermostat
